import Mathlib

/-!
Verification of the WindVox Volcengine streaming ASR client
(`src/windvox/asr.py`): binary header/frame codec, the streaming
session state machine (connect / send_audio / finish / disconnect)
and the receive-loop result aggregation.

Bytes are modelled as `List Nat` (each element a byte value; `% 256`
is applied wherever the source stores into a byte).  Python exceptions
are modelled with `Except String`.  The gzip and JSON library
functions called by the client are not part of this repository, so the
frame codec is parameterised over abstract
compression/decompression/serialization functions; decoded JSON values
are modelled by the inductive `JsonVal`.
-/

/-! ## Definitions: the embedded client -/



def PROTOCOL_VERSION : Nat := 0b0001

def FULL_CLIENT_REQUEST : Nat := 0b0001

def AUDIO_ONLY_REQUEST : Nat := 0b0010

def FULL_SERVER_RESPONSE : Nat := 0b1001

def SERVER_ACK : Nat := 0b1011

def SERVER_ERROR_RESPONSE : Nat := 0b1111

def NO_SEQUENCE : Nat := 0b0000

def POS_SEQUENCE : Nat := 0b0001

def NEG_SEQUENCE : Nat := 0b0010

def JSON_SERIALIZATION : Nat := 0b0001

def GZIP_COMPRESSION : Nat := 0b0001

def NO_COMPRESSION : Nat := 0b0000

/-- Python `int.from_bytes(bs, "big", signed=False)`. -/
def bytesToNatBE (bs : List Nat) : Nat :=
  bs.foldl (fun acc b => acc * 256 + b % 256) 0

/-- Python `int.from_bytes(bs, "big", signed=True)` (two's complement);
`int.from_bytes(b"", ...) = 0`. -/
def bytesToIntBE (bs : List Nat) : Int :=
  let n := bytesToNatBE bs
  if 2 * n < 2 ^ (8 * bs.length) then (n : Int) else (n : Int) - 2 ^ (8 * bs.length)

/-- Python `n.to_bytes(4, "big")` (big-endian, 4 bytes, value taken mod 2^32). -/
def natToBytes4 (n : Nat) : List Nat :=
  [n / 2 ^ 24 % 256, n / 2 ^ 16 % 256, n / 2 ^ 8 % 256, n % 256]

/-- Python sequence indexing `l[i]`: raises `IndexError` when out of range. -/
def pyIndex (l : List Nat) (i : Nat) : Except String Nat :=
  match l.get? i with
  | some v => .ok v
  | none => .error "IndexError: index out of range"

/-- `generate_header` from asr.py: 4-byte protocol header
`[(version<<4)|header_size, (message_type<<4)|flags,
(serial_method<<4)|compression_type, 0x00]`. -/
def generate_header (message_type flags serial_method compression_type : Nat) :
    List Nat :=
  [((PROTOCOL_VERSION <<< 4) ||| 1) % 256,
   ((message_type <<< 4) ||| flags) % 256,
   ((serial_method <<< 4) ||| compression_type) % 256,
   0x00]

/-- Python `sequence.to_bytes(4, "big", signed=True)` from `generate_sequence`. -/
def generate_sequence (sequence : Int) : List Nat :=
  natToBytes4 (sequence % (2 ^ 32 : Int)).toNat

/-- The header-field extraction at the top of `parse_response`
(asr.py lines 70-74): reads bytes 0,1,2 of the input and splits the
nibbles; bytes beyond index 2 are never inspected. -/
def headerFields (res : List Nat) :
    Except String (Nat × Nat × Nat × Nat × Nat) := do
  let b0 ← pyIndex res 0
  let b1 ← pyIndex res 1
  let b2 ← pyIndex res 2
  .ok (b0 &&& 0x0F, b1 >>> 4, b1 &&& 0x0F, b2 >>> 4, b2 &&& 0x0F)

inductive JsonVal where
  | jnull : JsonVal
  | jbool : Bool → JsonVal
  | jnum : Int → JsonVal
  | jstr : String → JsonVal
  | jobj : List (String × JsonVal) → JsonVal

/-- Python truthiness (`if text:`) of a decoded JSON value. -/
def truthy : JsonVal → Bool
  | .jnull => false
  | .jbool b => b
  | .jnum n => n != 0
  | .jstr s => s != ""
  | .jobj fs => !fs.isEmpty

/-- Python `dict.get(key, default)` on a decoded JSON object. -/
def dictGet (fs : List (String × JsonVal)) (key : String) (dflt : JsonVal) :
    JsonVal :=
  match fs.lookup key with
  | some v => v
  | none => dflt

/-- Python `value.get(key, default)`: works on dicts, raises
`AttributeError` on every other value. -/
def pyGet (v : JsonVal) (key : String) (dflt : JsonVal) :
    Except String JsonVal :=
  match v with
  | .jobj fs => .ok (dictGet fs key dflt)
  | _ => .error "AttributeError: object has no attribute get"

/-- The `payload_msg` entry of a parsed response: raw bytes when the
header's serialization nibble is not JSON, a decoded JSON value when
it is. -/
inductive PayloadMsg where
  | raw : List Nat → PayloadMsg
  | json : JsonVal → PayloadMsg

/-- The dict returned by `parse_response`, as a structure: keys that
the source only sometimes inserts become `Option` fields. -/
structure ParsedResponse where
  is_last_package : Bool
  payload_sequence : Option Int
  seq : Option Int
  code : Option Nat
  payload_msg : Option PayloadMsg

/-- `parse_response` from asr.py, parameterised over the gzip
decompressor `gz` (Python `gzip.decompress`, which raises on invalid
data) and the JSON reader `js` (`json.loads` composed with UTF-8
decoding, which raises on invalid bytes). -/
def parse_response (gz : List Nat → Except String (List Nat))
    (js : List Nat → Except String JsonVal) (res : List Nat) :
    Except String ParsedResponse := do
  let (header_size, message_type, flags, serialization_method,
       message_compression) ← headerFields res
  let payload0 := res.drop (header_size * 4)
  -- if message_type_specific_flags & 0x01: read 4-byte signed sequence
  let (payload_sequence, payload) :=
    if flags &&& 0x01 ≠ 0 then
      (some (bytesToIntBE (payload0.take 4)), payload0.drop 4)
    else (none, payload0)
  -- if message_type_specific_flags & 0x02: last package
  let is_last_package := flags &&& 0x02 ≠ 0
  -- branch on message type; FULL_CLIENT_REQUEST etc. match no branch
  let (seq, code, payload_msg) :=
    if message_type = FULL_SERVER_RESPONSE then
      (none, none, some (payload.drop 4))
    else if message_type = SERVER_ACK then
      (some (bytesToIntBE (payload.take 4)), none,
       if payload.length ≥ 8 then some (payload.drop 8) else none)
    else if message_type = SERVER_ERROR_RESPONSE then
      (none, some (bytesToNatBE (payload.take 4)), some (payload.drop 8))
    else (none, none, none)
  match payload_msg with
  | none => .ok ⟨is_last_package, payload_sequence, seq, code, none⟩
  | some msg0 => do
    let msg1 ← if message_compression = GZIP_COMPRESSION then gz msg0
               else .ok msg0
    if serialization_method = JSON_SERIALIZATION then
      let v ← js msg1
      .ok ⟨is_last_package, payload_sequence, seq, code, some (.json v)⟩
    else
      .ok ⟨is_last_package, payload_sequence, seq, code, some (.raw msg1)⟩

/-- The config frame built inside `VolcengineASR._send_config`
(asr.py lines 226-237), parameterised over `json.dumps` + UTF-8
encoding (`dumps`) and `gzip.compress` (`compress`); the source always
calls it with sequence 1. -/
def sendConfigMessage (dumps : JsonVal → List Nat)
    (compress : List Nat → List Nat) (config : JsonVal) (sequence : Int) :
    List Nat :=
  let payload_bytes := compress (dumps config)
  generate_header FULL_CLIENT_REQUEST POS_SEQUENCE JSON_SERIALIZATION
      GZIP_COMPRESSION
    ++ generate_sequence sequence
    ++ natToBytes4 payload_bytes.length
    ++ payload_bytes

/-- The audio frame built inside `VolcengineASR.send_audio`
(asr.py lines 288-298): gzip-compressed audio, header
(AUDIO_ONLY_REQUEST, NO_SEQUENCE, serialization 0, gzip), unsigned
4-byte length, payload. -/
def buildAudioFrame (compress : List Nat → List Nat) (audio_data : List Nat) :
    List Nat :=
  let payload_bytes := compress audio_data
  generate_header AUDIO_ONLY_REQUEST NO_SEQUENCE 0 GZIP_COMPRESSION
    ++ natToBytes4 payload_bytes.length
    ++ payload_bytes

/-- The end-of-audio frame built inside `VolcengineASR.finish`
(asr.py lines 315-324): gzip of the empty payload, header
(AUDIO_ONLY_REQUEST, NEG_SEQUENCE i.e. the last-package flag,
serialization 0, gzip), unsigned 4-byte length, payload. -/
def buildAudioEndFrame (compress : List Nat → List Nat) : List Nat :=
  let payload_bytes := compress []
  generate_header AUDIO_ONLY_REQUEST NEG_SEQUENCE 0 GZIP_COMPRESSION
    ++ natToBytes4 payload_bytes.length
    ++ payload_bytes

/-- The mutable fields of a `VolcengineASR` instance that the claims
are about.  `wsOpen` models `self._ws is not None`, `receiveTask`
models `self._receive_task is not None`; the text fields hold decoded
JSON values because the receive loop stores whatever
`payload_msg["result"]["text"]` decodes to. -/
structure SessionState where
  connected : Bool
  sequence : Int
  currentText : JsonVal
  finalText : JsonVal
  wsOpen : Bool
  receiveTask : Bool

/-- An invocation of one of the registered callbacks
(`_on_partial` / `_on_final` / `_on_error`). -/
inductive CbEvent where
  | interim : JsonVal → CbEvent
  | last : JsonVal → CbEvent
  | err : String → CbEvent

/-- Outcomes of the external operations performed during `connect`:
the websocket open, the config-frame send, and the single blocking
init read. -/
structure ConnectEnv where
  openOk : Bool
  openErr : String
  sendOk : Bool
  sendErr : String
  recvResult : Except String (List Nat)

/-- `VolcengineASR.connect` (asr.py lines 164-206) together with the
`_send_config` it awaits: on websocket-open success it sets `_ws`,
`_connected = True`, resets `_sequence` and the text fields, sends the
config frame, performs one blocking read and parses it, then starts
the receive task and returns `True`.  Any exception lands in the
`except` block: the error is reported via `_on_error` and `False` is
returned — with no rollback of the fields already assigned. -/
def connect (gz : List Nat → Except String (List Nat))
    (js : List Nat → Except String JsonVal) (env : ConnectEnv)
    (st : SessionState) : Bool × SessionState × List CbEvent :=
  if env.openOk then
    let st1 : SessionState :=
      { st with wsOpen := true, connected := true, sequence := 0,
                finalText := .jstr "", currentText := .jstr "" }
    if env.sendOk then
      match env.recvResult with
      | .ok response =>
        match parse_response gz js response with
        | .ok _ => (true, { st1 with receiveTask := true }, [])
        | .error e => (false, st1, [.err e])
      | .error e => (false, st1, [.err e])
    else (false, st1, [.err env.sendErr])
  else (false, st, [.err env.openErr])

/-- `connect` fails when the websocket open, the config send, the
init read or the parse of the init response fails. -/
def connectFails (gz : List Nat → Except String (List Nat))
    (js : List Nat → Except String JsonVal) (env : ConnectEnv) : Prop :=
  env.openOk = false ∨ env.sendOk = false ∨
    (∃ e, env.recvResult = .error e) ∨
    (∃ response e, env.recvResult = .ok response ∧
      parse_response gz js response = .error e)

/-- `VolcengineASR.send_audio` (asr.py lines 278-303): no-op when not
connected; otherwise builds the audio frame and sends it.  A send
failure is caught and only logged (`logger.error`): no callback is
invoked and no field is assigned.  The third component is the frame
handed to the transport (`none` when nothing was delivered). -/
def send_audio (compress : List Nat → List Nat) (sendOk : Bool)
    (audio_data : List Nat) (st : SessionState) :
    SessionState × List CbEvent × Option (List Nat) :=
  if !st.connected || !st.wsOpen then (st, [], none)
  else
    let message := buildAudioFrame compress audio_data
    if sendOk then (st, [], some message)
    else (st, [], none)

/-- `VolcengineASR.finish` (asr.py lines 305-334): returns
`_current_text` when not connected; otherwise sends the end-of-audio
frame (a send failure is caught and only logged), waits 0.5 s, and
returns `_final_text if _final_text else _current_text`.  The model is
a total function: no exception can escape. -/
def finish (compress : List Nat → List Nat) (sendOk : Bool)
    (st : SessionState) : JsonVal × Option (List Nat) :=
  if !st.connected || !st.wsOpen then (st.currentText, none)
  else
    let message := buildAudioEndFrame compress
    let sent := if sendOk then some message else none
    (if truthy st.finalText then st.finalText else st.currentText, sent)

/-- The externally visible actions `disconnect` performs, in order. -/
inductive TAction where
  | cancelTask : TAction
  | awaitTask : TAction
  | closeWs : TAction
deriving DecidableEq

/-- `VolcengineASR.disconnect` (asr.py lines 336-352): sets
`_connected = False`; if a receive task exists, cancels it, awaits it
(swallowing `CancelledError`) and clears it; if the websocket exists,
closes it and clears it.  The text fields are not touched.  The
returned trace lists the external actions in program order. -/
def disconnect (st : SessionState) : SessionState × List TAction :=
  let st0 := { st with connected := false }
  let (st1, t1) :=
    if st0.receiveTask then
      ({ st0 with receiveTask := false },
       [TAction.cancelTask, TAction.awaitTask])
    else (st0, ([] : List TAction))
  let (st2, t2) :=
    if st1.wsOpen then ({ st1 with wsOpen := false }, [TAction.closeWs])
    else (st1, ([] : List TAction))
  (st2, t1 ++ t2)

/-- One message delivered by the websocket iterator: binary or not
(the loop only processes `bytes` messages). -/
inductive InMsg where
  | bin : List Nat → InMsg
  | nonbin : InMsg

/-- The body of one iteration of `VolcengineASR._receive_loop`
(asr.py lines 250-269) applied to an already parsed response:
`payload_msg = result.get("payload_msg", {})`; non-dict payloads are
skipped; `asr_result = payload_msg.get("result", {})`;
`text = asr_result.get("text", "")` (raising `AttributeError` when
`asr_result` is not a dict); when `text` is truthy, `_current_text`
is set, and on a last package `_final_text` is set and `_on_final`
fires, otherwise `_on_partial` fires. -/
def receiveStep (res : ParsedResponse)
    (st : SessionState) : Except String (SessionState × List CbEvent) :=
  match res.payload_msg.getD (.json (.jobj [])) with
  | .json (.jobj fs) => do
    let asr_result := dictGet fs "result" (.jobj [])
    let text ← pyGet asr_result "text" (.jstr "")
    if truthy text then
      let st1 := { st with currentText := text }
      if res.is_last_package then
        .ok ({ st1 with finalText := text }, [.last text])
      else
        .ok (st1, [.interim text])
    else
      .ok (st, [])
  | _ => .ok (st, [])

/-- `VolcengineASR._receive_loop` (asr.py lines 246-276) over a list
of delivered messages: the whole `async for` is wrapped in one
`try`/`except`, so the first exception raised while parsing or
processing a frame reports via `_on_error` and terminates the loop;
the remaining messages are never processed.  Exhausting the iterator
(or `ConnectionClosed`) ends the loop silently. -/
def receiveLoop (gz : List Nat → Except String (List Nat))
    (js : List Nat → Except String JsonVal) (msgs : List InMsg)
    (st : SessionState) : SessionState × List CbEvent :=
  match msgs with
  | [] => (st, [])
  | .nonbin :: rest => receiveLoop gz js rest st
  | .bin message :: rest =>
    match parse_response gz js message with
    | .error e => (st, [.err e])
    | .ok result =>
      match receiveStep result st with
      | .error e => (st, [.err e])
      | .ok (st1, evs) =>
        let (st2, evs2) := receiveLoop gz js rest st1
        (st2, evs ++ evs2)

/-- The value `asr_result.get("text", "")` computed by the receive
loop, as a partial specification function: `none` marks the path on
which the source raises `AttributeError` (the payload's `result`
field is present but not a dict); otherwise the value the lookup
produces (non-dict payloads look up to the falsy `""` default,
matching the `isinstance` skip). -/
def lookedUpText (res : ParsedResponse) : Option JsonVal :=
  match res.payload_msg.getD (.json (.jobj [])) with
  | .json (.jobj fs) =>
    match dictGet fs "result" (.jobj []) with
    | .jobj rfs => some (dictGet rfs "text" (.jstr ""))
    | _ => none
  | _ => some (.jstr "")

/-- Whether a decoded JSON value is a Python string. -/
def isStr : JsonVal → Bool
  | .jstr _ => true
  | _ => false

/-! ## Theorems -/

theorem nibblePack_roundtrip :
    ∀ a < 16, ∀ b < 16,
      (((a <<< 4) ||| b) % 256) >>> 4 = a ∧
      (((a <<< 4) ||| b) % 256) &&& 0x0F = b := by
  decide

theorem headerFields_generate_header
    (mt flags ser comp : Nat)
    (hmt : mt < 16) (hfl : flags < 16) (hser : ser < 16) (hcomp : comp < 16) :
    headerFields (generate_header mt flags ser comp) =
      .ok (1, mt, flags, ser, comp) := by
  have h1 := nibblePack_roundtrip mt hmt flags hfl
  have h2 := nibblePack_roundtrip ser hser comp hcomp
  simp [headerFields, generate_header, pyIndex, PROTOCOL_VERSION, Bind.bind,
    Except.bind, h1.1, h1.2, h2.1, h2.2]
  decide

/-- C3: for all 4-bit messageType, flags, serialization and compression
values, decoding the 4-byte header produced by `generate_header` with
the header-field extraction of `parse_response` recovers exactly the
supplied messageType, flags, serialization and compression (and
header size 1). -/
theorem C3_header_roundtrip
    (mt flags ser comp : Nat)
    (hmt : mt < 16) (hfl : flags < 16) (hser : ser < 16) (hcomp : comp < 16) :
    headerFields (generate_header mt flags ser comp) =
      .ok (1, mt, flags, ser, comp) :=
  headerFields_generate_header mt flags ser comp hmt hfl hser hcomp

/-- Witness for C3 at messageType = 9 (FULL_SERVER_RESPONSE), flags = 1,
serialization = 1, compression = 1. -/
theorem C3_header_roundtrip_witness :
    headerFields (generate_header 9 1 1 1) = .ok (1, 9, 1, 1, 1) :=
  C3_header_roundtrip 9 1 1 1 (by decide) (by decide) (by decide) (by decide)

/-- Any result of applying `parse_response` to fewer than 3 bytes. -/
theorem parse_response_short (gz : List Nat → Except String (List Nat))
    (js : List Nat → Except String JsonVal) (res : List Nat)
    (h : res.length < 3) :
    parse_response gz js res = .error "IndexError: index out of range" := by
  match res with
  | [] => rfl
  | [_] => rfl
  | [_, _] => rfl
  | _ :: _ :: _ :: _ => simp at h; omega

/-- C9 counterexample: the 3-byte input `[0x11, 0x00, 0x00]` — fewer
than 4 bytes — is parsed successfully (`parse_response` never reads
the reserved 4th header byte), contradicting the claim that every
input of fewer than 4 bytes fails. -/
theorem C9_counterexample :
    parse_response (fun _ => .error "gzip") (fun _ => .error "json")
      [0x11, 0x00, 0x00] = .ok ⟨false, none, none, none, none⟩ := by
  rfl

/-- C9 amended: the parser reads only the first three header bytes, so
it fails with an index error exactly on inputs of fewer than 3 bytes;
a 3-byte input can already parse successfully because the reserved
4th header byte is never inspected. -/
theorem C9_short_input_fails (gz : List Nat → Except String (List Nat))
    (js : List Nat → Except String JsonVal) (res : List Nat)
    (h : res.length < 3) :
    parse_response gz js res = .error "IndexError: index out of range" :=
  parse_response_short gz js res h

/-- Witness for C9 amended at the 2-byte input `[0x11, 0x00]`. -/
theorem C9_short_input_fails_witness :
    parse_response (fun _ => .error "gzip") (fun _ => .error "json")
      [0x11, 0x00] = .error "IndexError: index out of range" :=
  C9_short_input_fails _ _ [0x11, 0x00] (by decide)

/-- Parsing the config frame recovers the sequence but NO payload:
`parse_response` only extracts payload bytes for the server message
types (FULL_SERVER_RESPONSE, SERVER_ACK, SERVER_ERROR_RESPONSE), and
the config frame's type FULL_CLIENT_REQUEST matches none of its
branches. -/
theorem parse_client_request_shape
    (gz : List Nat → Except String (List Nat))
    (js : List Nat → Except String JsonVal) (rest : List Nat) :
    parse_response gz js (17 :: 17 :: 17 :: 0 :: 0 :: 0 :: 0 :: 1 :: rest) =
      .ok ⟨false, some 1, none, none, none⟩ := by
  have hdr : headerFields (17 :: 17 :: 17 :: 0 :: 0 :: 0 :: 0 :: 1 :: rest) =
      .ok (1, 1, 1, 1, 1) := rfl
  have hdrop : (17 :: 17 :: 17 :: 0 :: 0 :: 0 :: 0 :: 1 :: rest).drop (1 * 4) =
      0 :: 0 :: 0 :: 1 :: rest := rfl
  have htake : (0 :: 0 :: 0 :: 1 :: rest).take 4 = [0, 0, 0, 1] := rfl
  have hseq : bytesToIntBE [0, 0, 0, 1] = 1 := rfl
  simp [parse_response, hdr, hdrop, htake, hseq, Bind.bind, Except.bind,
    FULL_SERVER_RESPONSE, SERVER_ACK, SERVER_ERROR_RESPONSE]

theorem sendConfigMessage_shape (dumps : JsonVal → List Nat)
    (compress : List Nat → List Nat) (cfg : JsonVal) :
    sendConfigMessage dumps compress cfg 1 =
      17 :: 17 :: 17 :: 0 :: 0 :: 0 :: 0 :: 1 ::
        (natToBytes4 (compress (dumps cfg)).length ++ compress (dumps cfg)) := by
  simp [sendConfigMessage, generate_header, generate_sequence, natToBytes4,
    PROTOCOL_VERSION, FULL_CLIENT_REQUEST, POS_SEQUENCE, JSON_SERIALIZATION,
    GZIP_COMPRESSION]

theorem parse_sendConfigMessage (dumps : JsonVal → List Nat)
    (compress : List Nat → List Nat) (gz : List Nat → Except String (List Nat))
    (js : List Nat → Except String JsonVal) (cfg : JsonVal) :
    parse_response gz js (sendConfigMessage dumps compress cfg 1) =
      .ok ⟨false, some 1, none, none, none⟩ := by
  rw [sendConfigMessage_shape]
  exact parse_client_request_shape gz js _

/-- C4 amended: building the config frame with sequence 1 and running
`parse_response` on those bytes yields a parsed message carrying
sequence 1 and NO payload at all: `parse_response` extracts payload
bytes only for the server message types, and FULL_CLIENT_REQUEST
matches none of its branches, so the JSON payload is not recovered. -/
theorem C4_config_frame_parse (dumps : JsonVal → List Nat)
    (compress : List Nat → List Nat) (gz : List Nat → Except String (List Nat))
    (js : List Nat → Except String JsonVal) (cfg : JsonVal) :
    parse_response gz js (sendConfigMessage dumps compress cfg 1) =
      .ok ⟨false, some 1, none, none, none⟩ :=
  parse_sendConfigMessage dumps compress gz js cfg

/-- C4 counterexample: with serializer/compressor/inverse functions
that do round-trip (`js (dumps cfg) = ok cfg`, decompression is the
identity inverse of compression), parsing the config frame built from
the concrete config `{"a": 1}` still yields `payload_msg = none`
rather than a payload deep-equal to the config. -/
theorem C4_counterexample :
    ((fun bs => if bs = [7] then Except.ok (JsonVal.jobj [("a", JsonVal.jnum 1)])
        else Except.error "invalid JSON")
      ((fun _ => [7]) (JsonVal.jobj [("a", JsonVal.jnum 1)]))
      = Except.ok (JsonVal.jobj [("a", JsonVal.jnum 1)])) ∧
    (parse_response (fun bs => Except.ok bs)
        (fun bs => if bs = [7] then Except.ok (JsonVal.jobj [("a", JsonVal.jnum 1)])
          else Except.error "invalid JSON")
        (sendConfigMessage (fun _ => [7]) (fun bs => bs)
          (JsonVal.jobj [("a", JsonVal.jnum 1)]) 1)).map
      ParsedResponse.payload_msg = Except.ok none := by
  constructor
  · rfl
  · rw [sendConfigMessage_shape, parse_client_request_shape]
    rfl

theorem bytesToNatBE_natToBytes4 (n : Nat) (h : n < 2 ^ 32) :
    bytesToNatBE (natToBytes4 n) = n := by
  simp [bytesToNatBE, natToBytes4]
  omega

theorem buildAudioEndFrame_shape (compress : List Nat → List Nat) :
    buildAudioEndFrame compress =
      [0x11, 0x22, 0x01, 0x00] ++ natToBytes4 (compress []).length
        ++ compress [] := by
  simp [buildAudioEndFrame, generate_header, AUDIO_ONLY_REQUEST, NEG_SEQUENCE,
    GZIP_COMPRESSION, PROTOCOL_VERSION]

/-- C8 counterexample: the end-of-audio frame's header bytes are
`11 22 01 00`, not `11 20 00 00` — byte 1 carries the last-package
flag 2 in its low nibble (0x22), and byte 2 is 0x01 because the
compression nibble is gzip. -/
theorem C8_counterexample :
    (buildAudioEndFrame (fun bs => bs)).take 4 = [0x11, 0x22, 0x01, 0x00] ∧
    [0x11, 0x22, 0x01, 0x00] ≠ ([0x11, 0x20, 0x00, 0x00] : List Nat) := by
  constructor
  · rfl
  · decide

/-- C8 amended: `buildAudioEndFrame` produces exactly the header bytes
`11 22 01 00` (type AUDIO_ONLY_REQUEST = 2 in the high nibble of
byte 1, flags LAST_PACKAGE/NEG_SEQUENCE = 2 in its low nibble, byte 2
= 0x01 from serialization none / compression gzip), followed by the
4-byte unsigned big-endian length of the gzip of the empty payload and
that gzip output itself. -/
theorem C8_audio_end_frame (compress : List Nat → List Nat)
    (h : (compress []).length < 2 ^ 32) :
    buildAudioEndFrame compress =
      [0x11, 0x22, 0x01, 0x00] ++ natToBytes4 (compress []).length
        ++ compress [] ∧
    bytesToNatBE (natToBytes4 (compress []).length) = (compress []).length :=
  ⟨buildAudioEndFrame_shape compress, bytesToNatBE_natToBytes4 _ h⟩

/-- Witness for C8 amended with the identity as compressor. -/
theorem C8_audio_end_frame_witness :
    buildAudioEndFrame (fun bs => bs) =
      [0x11, 0x22, 0x01, 0x00] ++ natToBytes4 (([] : List Nat)).length
        ++ ([] : List Nat) ∧
    bytesToNatBE (natToBytes4 (([] : List Nat)).length) =
      (([] : List Nat)).length :=
  C8_audio_end_frame (fun bs => bs) (by decide)

/-- C6 counterexample: in a streaming state, when the transport send
fails, `send_audio` emits NO callback at all — the error callback is
not invoked (the source only calls `logger.error`) — and the state is
returned unchanged. -/
theorem C6_counterexample :
    send_audio (fun bs => bs) false [1, 2]
      ⟨true, 0, JsonVal.jstr "hello", JsonVal.jstr "", true, true⟩ =
      (⟨true, 0, JsonVal.jstr "hello", JsonVal.jstr "", true, true⟩,
        [], none) := by
  rfl

/-- C6 amended: when the transport send inside `send_audio` fails
while streaming, the failure is only logged — the registered error
callback is NOT invoked — and no session state (connection flag,
currentText, finalText, sequence counter) is changed. -/
theorem C6_send_audio_failure (compress : List Nat → List Nat)
    (audio_data : List Nat) (st : SessionState)
    (hc : st.connected = true) (hw : st.wsOpen = true) :
    send_audio compress false audio_data st = (st, [], none) := by
  simp [send_audio, hc, hw]

/-- Witness for C6 amended at a concrete streaming state. -/
theorem C6_send_audio_failure_witness :
    send_audio (fun bs => bs) false [3]
      ⟨true, 0, JsonVal.jstr "a", JsonVal.jstr "b", true, true⟩ =
      (⟨true, 0, JsonVal.jstr "a", JsonVal.jstr "b", true, true⟩, [], none) :=
  C6_send_audio_failure (fun bs => bs) [3] _ rfl rfl

/-- C5: while streaming (connected, websocket present) with
string-valued text fields, `finish` returns finalText when non-empty,
otherwise currentText when non-empty, otherwise the empty string; the
model is a total function (the source wraps the send in
`try`/`except`), so no exception reaches the caller, for either send
outcome. -/
theorem C5_finish_returns (compress : List Nat → List Nat) (sendOk : Bool)
    (st : SessionState) (f c : String)
    (hc : st.connected = true) (hw : st.wsOpen = true)
    (hf : st.finalText = .jstr f) (hcur : st.currentText = .jstr c) :
    (finish compress sendOk st).1 =
      .jstr (if f ≠ "" then f else if c ≠ "" then c else "") := by
  simp only [finish, hc, hw, hf, hcur, Bool.not_true, Bool.or_self,
    Bool.false_eq_true, if_false, truthy]
  by_cases hfe : f = ""
  · subst hfe
    simp
    by_cases hce : c = "" <;> simp [hce]
  · simp [hfe]

/-- Witness for C5 at final = "world", current = "hello". -/
theorem C5_finish_returns_witness :
    (finish (fun bs => bs) true
      ⟨true, 0, JsonVal.jstr "hello", JsonVal.jstr "world", true, true⟩).1 =
      .jstr (if "world" ≠ "" then "world"
             else if "hello" ≠ "" then "hello" else "") :=
  C5_finish_returns (fun bs => bs) true _ "world" "hello" rfl rfl rfl rfl

/-- C7 counterexample: after `disconnect` from a state holding text,
currentText and finalText still hold the previous connection's text —
the source never clears `_current_text`/`_final_text` in
`disconnect`. -/
theorem C7_counterexample :
    (disconnect
      ⟨true, 0, JsonVal.jstr "hello", JsonVal.jstr "world", true, true⟩).1 =
      ⟨false, 0, JsonVal.jstr "hello", JsonVal.jstr "world", false, false⟩ ∧
    JsonVal.jstr "hello" ≠ JsonVal.jstr "" := by
  constructor
  · rfl
  · simp

/-- C7 amended: `disconnect` is idempotent from any state (a second
call changes nothing and performs no external action), cancels and
awaits the receive task before closing the transport (when both
exist, the action trace is exactly cancel, await, close), and clears
the connected flag, the receive task and the websocket — but it does
NOT reset currentText/finalText; those are only cleared by the next
successful `connect`. -/
theorem C7_disconnect (st : SessionState) :
    (disconnect st).1.connected = false ∧
    (disconnect st).1.receiveTask = false ∧
    (disconnect st).1.wsOpen = false ∧
    (disconnect st).1.currentText = st.currentText ∧
    (disconnect st).1.finalText = st.finalText ∧
    disconnect (disconnect st).1 = ((disconnect st).1, []) ∧
    (st.receiveTask = true → st.wsOpen = true →
      (disconnect st).2 =
        [TAction.cancelTask, TAction.awaitTask, TAction.closeWs]) := by
  obtain ⟨cn, sq, cur, fin, ws, task⟩ := st
  cases ws <;> cases task <;> simp [disconnect]

/-- Witness for C7 amended at a connected state with both the receive
task and the websocket present. -/
theorem C7_disconnect_witness :
    (disconnect
      ⟨true, 1, JsonVal.jstr "a", JsonVal.jstr "b", true, true⟩).1.connected
      = false ∧
    (disconnect
      ⟨true, 1, JsonVal.jstr "a", JsonVal.jstr "b", true, true⟩).2 =
      [TAction.cancelTask, TAction.awaitTask, TAction.closeWs] :=
  have h := C7_disconnect ⟨true, 1, JsonVal.jstr "a", JsonVal.jstr "b", true, true⟩
  ⟨h.1, h.2.2.2.2.2.2 rfl rfl⟩

/-- C1 counterexample: starting from a disconnected session, when the
websocket opens but the config send fails, `connect` returns `False`
and reports the error — but the connected flag is `true` when
`connect` returns (it was set right after the transport opened and
the `except` block does not reset it). -/
theorem C1_counterexample :
    (connect (fun _ => .error "g") (fun _ => .error "j")
        ⟨true, "open failed", false, "send failed", .ok []⟩
        ⟨false, 0, JsonVal.jstr "", JsonVal.jstr "", false, false⟩).1
      = false ∧
    (connect (fun _ => .error "g") (fun _ => .error "j")
        ⟨true, "open failed", false, "send failed", .ok []⟩
        ⟨false, 0, JsonVal.jstr "", JsonVal.jstr "", false, false⟩).2.2
      = [CbEvent.err "send failed"] ∧
    (connect (fun _ => .error "g") (fun _ => .error "j")
        ⟨true, "open failed", false, "send failed", .ok []⟩
        ⟨false, 0, JsonVal.jstr "", JsonVal.jstr "", false, false⟩).2.1.connected
      = true := by
  exact ⟨rfl, rfl, rfl⟩

/-- C1 amended: starting from a disconnected session, every failure
during `connect` (transport open, config send, the single blocking
init read, or the parse of the init response) makes `connect` return
failure and report the error via the error callback; but the
connected flag is false at return only for a transport-open failure —
after any later failure it remains true. -/
theorem C1_connect_failure (gz : List Nat → Except String (List Nat))
    (js : List Nat → Except String JsonVal) (env : ConnectEnv)
    (st : SessionState) (hst : st.connected = false)
    (h : connectFails gz js env) :
    (connect gz js env st).1 = false ∧
    (∃ e, (connect gz js env st).2.2 = [CbEvent.err e]) ∧
    (connect gz js env st).2.1.connected = env.openOk := by
  obtain ⟨opok, operr, sdok, sderr, recv⟩ := env
  cases opok with
  | false => simp [connect, hst]
  | true =>
    cases sdok with
    | false => simp [connect]
    | true =>
      rcases h with h | h | ⟨e, he⟩ | ⟨response, e, hr, hp⟩
      · simp at h
      · simp at h
      · have he' : recv = Except.error e := he
        subst he'
        simp [connect]
      · have hr' : recv = Except.ok response := hr
        subst hr'
        simp [connect, hp]

/-- Witness for C1 amended: websocket open succeeds, config send
fails. -/
theorem C1_connect_failure_witness :
    (connect (fun _ => .error "g") (fun _ => .error "j")
        ⟨true, "open failed", false, "send failed", .ok []⟩
        ⟨false, 0, JsonVal.jstr "x", JsonVal.jstr "y", false, false⟩).1
      = false ∧
    (∃ e, (connect (fun _ => .error "g") (fun _ => .error "j")
        ⟨true, "open failed", false, "send failed", .ok []⟩
        ⟨false, 0, JsonVal.jstr "x", JsonVal.jstr "y", false, false⟩).2.2
      = [CbEvent.err e]) ∧
    (connect (fun _ => .error "g") (fun _ => .error "j")
        ⟨true, "open failed", false, "send failed", .ok []⟩
        ⟨false, 0, JsonVal.jstr "x", JsonVal.jstr "y", false, false⟩).2.1.connected
      = true :=
  C1_connect_failure (fun _ => .error "g") (fun _ => .error "j")
    ⟨true, "open failed", false, "send failed", .ok []⟩
    ⟨false, 0, JsonVal.jstr "x", JsonVal.jstr "y", false, false⟩ rfl
    (Or.inr (Or.inl rfl))

/-- C2 amended: when parsing an inbound frame raises a payload-decode
error, the frame is dropped and an error event is emitted, but the
receive loop TERMINATES: no subsequent inbound frame is processed. -/
theorem C2_decode_error_ends_loop (gz : List Nat → Except String (List Nat))
    (js : List Nat → Except String JsonVal) (bs : List Nat)
    (rest : List InMsg) (st : SessionState) (e : String)
    (h : parse_response gz js bs = .error e) :
    receiveLoop gz js (.bin bs :: rest) st = (st, [CbEvent.err e]) := by
  simp [receiveLoop, h]

/-- Witness for C2 amended: a frame too short to parse, followed by
another frame that is never reached. -/
theorem C2_decode_error_ends_loop_witness :
    receiveLoop (fun _ => .error "g") (fun _ => .error "j")
      [.bin [], .nonbin]
      ⟨true, 0, JsonVal.jstr "", JsonVal.jstr "", true, true⟩ =
      (⟨true, 0, JsonVal.jstr "", JsonVal.jstr "", true, true⟩,
        [CbEvent.err "IndexError: index out of range"]) :=
  C2_decode_error_ends_loop _ _ [] [.nonbin] _ _ rfl

/-- C2 counterexample: a frame whose gzip payload fails to decompress,
followed by a well-formed frame carrying text "hi".  The loop stops at
the bad frame with a single error event and unchanged state; running
the loop on the second frame alone shows what processing it would
have done (set currentText, fire a partial event) — so the loop did
NOT continue to subsequent frames. -/
theorem C2_counterexample :
    receiveLoop
      (fun bs => if bs = [0] then .error "BadGzipFile" else .ok bs)
      (fun bs => if bs = [1]
        then .ok (.jobj [("result", .jobj [("text", .jstr "hi")])])
        else .error "invalid JSON")
      [.bin [17, 144, 17, 0, 0, 0, 0, 1, 0], .bin [17, 144, 17, 0, 0, 0, 0, 1, 1]]
      ⟨true, 0, JsonVal.jstr "", JsonVal.jstr "", true, true⟩ =
      (⟨true, 0, JsonVal.jstr "", JsonVal.jstr "", true, true⟩,
        [CbEvent.err "BadGzipFile"]) ∧
    receiveLoop
      (fun bs => if bs = [0] then .error "BadGzipFile" else .ok bs)
      (fun bs => if bs = [1]
        then .ok (.jobj [("result", .jobj [("text", .jstr "hi")])])
        else .error "invalid JSON")
      [.bin [17, 144, 17, 0, 0, 0, 0, 1, 1]]
      ⟨true, 0, JsonVal.jstr "", JsonVal.jstr "", true, true⟩ =
      (⟨true, 0, JsonVal.jstr "hi", JsonVal.jstr "", true, true⟩,
        [CbEvent.interim (.jstr "hi")]) := by
  constructor
  · rfl
  · rfl

/-- Exhaustive description of the successful outcomes of one
receive-loop step. -/
theorem receiveStep_ok_shape (res : ParsedResponse) (st st' : SessionState)
    (evs : List CbEvent) (h : receiveStep res st = .ok (st', evs)) :
    (st' = st ∧ evs = []) ∨
    (∃ t, truthy t = true ∧
      ((st' = { st with currentText := t, finalText := t } ∧
          evs = [.last t]) ∨
       (st' = { st with currentText := t } ∧ evs = [.interim t]))) := by
  obtain ⟨lastp, pseq, sq, cd, pm⟩ := res
  have triv : (Except.ok (st, ([] : List CbEvent)) :
        Except String (SessionState × List CbEvent)) = Except.ok (st', evs) →
      st' = st ∧ evs = [] := by
    intro hh
    injection hh with h1
    injection h1 with h2 h3
    exact ⟨h2.symm, h3.symm⟩
  rcases pm with _ | pmv
  · exact Or.inl (triv h)
  · rcases pmv with bs | v
    · exact Or.inl (triv h)
    · rcases v with _ | b | n | s | fs
      · exact Or.inl (triv h)
      · exact Or.inl (triv h)
      · exact Or.inl (triv h)
      · exact Or.inl (triv h)
      · rcases hres : dictGet fs "result" (.jobj []) with _ | b | n | s | rfs
        · simp [receiveStep, pyGet, hres, Bind.bind, Except.bind] at h
        · simp [receiveStep, pyGet, hres, Bind.bind, Except.bind] at h
        · simp [receiveStep, pyGet, hres, Bind.bind, Except.bind] at h
        · simp [receiveStep, pyGet, hres, Bind.bind, Except.bind] at h
        · rcases htr : truthy (dictGet rfs "text" (.jstr "")) with _ | _
          · simp [receiveStep, pyGet, hres, htr, Bind.bind, Except.bind] at h
            obtain ⟨h1, h2⟩ := h
            subst h1
            subst h2
            exact Or.inl ⟨rfl, rfl⟩
          · cases lastp with
            | true =>
              simp [receiveStep, pyGet, hres, htr, Bind.bind, Except.bind] at h
              obtain ⟨h1, h2⟩ := h
              subst h1
              subst h2
              exact Or.inr ⟨dictGet rfs "text" (.jstr ""), htr,
                Or.inl ⟨rfl, rfl⟩⟩
            | false =>
              simp [receiveStep, pyGet, hres, htr, Bind.bind, Except.bind] at h
              obtain ⟨h1, h2⟩ := h
              subst h1
              subst h2
              exact Or.inr ⟨dictGet rfs "text" (.jstr ""), htr,
                Or.inr ⟨rfl, rfl⟩⟩

/-- A step whose looked-up text exists and is falsy changes nothing
and fires nothing. -/
theorem receiveStep_falsy (res : ParsedResponse) (st : SessionState)
    (t : JsonVal) (hl : lookedUpText res = some t) (ht : truthy t = false) :
    receiveStep res st = .ok (st, []) := by
  obtain ⟨lastp, pseq, sq, cd, pm⟩ := res
  rcases pm with _ | pmv
  · rfl
  · rcases pmv with bs | v
    · rfl
    · rcases v with _ | b | n | s | fs
      · rfl
      · rfl
      · rfl
      · rfl
      · rcases hres : dictGet fs "result" (.jobj []) with _ | b | n | s | rfs
        · simp [lookedUpText, hres] at hl
        · simp [lookedUpText, hres] at hl
        · simp [lookedUpText, hres] at hl
        · simp [lookedUpText, hres] at hl
        · simp [lookedUpText, hres] at hl
          subst hl
          simp [receiveStep, pyGet, hres, Bind.bind, Except.bind, ht]

/-- C10 amended: for every successful receive-loop step, (i) finalText
is either unchanged or assigned a truthy value (the source guards the
assignment with `if text:`, but the value need not be a string); (ii)
a frame whose looked-up text exists and is falsy — `result.text`
absent with `result` a dict or absent, payload not a dict, or an
empty/falsy text value — leaves currentText and finalText unchanged
and fires no callback, even when the frame carries the last-package
flag; (iii) whenever the final callback fires with text `t`,
currentText equals `t` at that moment. -/
theorem C10_receive_invariant (res : ParsedResponse) (st st' : SessionState)
    (evs : List CbEvent) (h : receiveStep res st = .ok (st', evs)) :
    (st'.finalText = st.finalText ∨ truthy st'.finalText = true) ∧
    (∀ t, lookedUpText res = some t → truthy t = false →
      st' = st ∧ evs = []) ∧
    (∀ t, CbEvent.last t ∈ evs → st'.currentText = t) := by
  refine ⟨?_, ?_, ?_⟩
  · rcases receiveStep_ok_shape res st st' evs h with ⟨rfl, -⟩ |
      ⟨t, htr, ⟨rfl, -⟩ | ⟨rfl, -⟩⟩
    · exact Or.inl rfl
    · exact Or.inr htr
    · exact Or.inl rfl
  · intro t hl ht
    rw [receiveStep_falsy res st t hl ht] at h
    injection h with h1
    injection h1 with h2 h3
    exact ⟨h2.symm, h3.symm⟩
  · intro t hmem
    rcases receiveStep_ok_shape res st st' evs h with ⟨rfl, rfl⟩ |
      ⟨u, htr, ⟨rfl, rfl⟩ | ⟨rfl, rfl⟩⟩
    · simp at hmem
    · simp at hmem
      subst hmem
      rfl
    · simp at hmem

/-- C10 counterexample: a last-package frame whose `result.text` is
the JSON number 5 (truthy, not a string) makes the step assign the
non-string value 5 to finalText (and fire the final callback with
it), contradicting "finalText is only ever assigned a non-empty
string". -/
theorem C10_counterexample :
    receiveStep
      ⟨true, none, none, none,
        some (.json (.jobj [("result", .jobj [("text", .jnum 5)])]))⟩
      ⟨true, 0, JsonVal.jstr "", JsonVal.jstr "", true, true⟩ =
      .ok (⟨true, 0, JsonVal.jnum 5, JsonVal.jnum 5, true, true⟩,
        [CbEvent.last (.jnum 5)]) ∧
    isStr (JsonVal.jnum 5) = false := by
  exact ⟨rfl, rfl⟩

/-- Witness for C10 amended at a concrete last-package frame carrying
text "hi". -/
theorem C10_receive_invariant_witness :
    ((⟨true, 0, JsonVal.jstr "hi", JsonVal.jstr "hi", true, true⟩ :
        SessionState).finalText =
      (⟨true, 0, JsonVal.jstr "", JsonVal.jstr "", true, true⟩ :
        SessionState).finalText ∨
      truthy (⟨true, 0, JsonVal.jstr "hi", JsonVal.jstr "hi", true, true⟩ :
        SessionState).finalText = true) ∧
    (∀ t, lookedUpText
        ⟨true, none, none, none,
          some (.json (.jobj [("result", .jobj [("text", .jstr "hi")])]))⟩ =
        some t → truthy t = false →
      (⟨true, 0, JsonVal.jstr "hi", JsonVal.jstr "hi", true, true⟩ :
        SessionState) =
        ⟨true, 0, JsonVal.jstr "", JsonVal.jstr "", true, true⟩ ∧
      [CbEvent.last (.jstr "hi")] = []) ∧
    (∀ t, CbEvent.last t ∈ [CbEvent.last (JsonVal.jstr "hi")] →
      (⟨true, 0, JsonVal.jstr "hi", JsonVal.jstr "hi", true, true⟩ :
        SessionState).currentText = t) :=
  C10_receive_invariant
    ⟨true, none, none, none,
      some (.json (.jobj [("result", .jobj [("text", .jstr "hi")])]))⟩
    ⟨true, 0, JsonVal.jstr "", JsonVal.jstr "", true, true⟩
    ⟨true, 0, JsonVal.jstr "hi", JsonVal.jstr "hi", true, true⟩
    [CbEvent.last (.jstr "hi")] rfl
